import Mathlib

/-!
Shallow embedding of the Phoenix Wolf Systems worker backend
(src/workers/worker.js).  The source file holds two worker scaffolds for
the same HTTP surface: the first (lines 1-451, namespace `W1`) guards the
one-time setup with a `secrets_initialized` flag; the second (lines
452-658, namespace `W2`) is the richer variant the specification's
response shapes were written from (key-named secret storage under
`secret:` keys, OAuth config read from the secrets namespace, a real
token-exchange request, checkout sessions with a `delivery` field, audit
listing capped at 200 keys).

Modelling conventions:
* JSON values are the inductive `Json`; JavaScript truthiness, `typeof`,
  `Object.entries`, `Object.assign` and `String()` coercion are embedded
  as functions on `Json`.
* Each KV namespace is an association list; `putAL` overwrites in place
  (Cloudflare KV `put` semantics), `getAL` looks a key up.  `list` with a
  prefix returns keys in lexicographic (UTF-8 codepoint) order, embedded
  by an insertion sort over the key strings.
* Request-scoped nondeterminism (crypto.randomUUID, Date.now,
  Math.random, new Date().toISOString, the `fetch` of the token
  endpoint) is passed in as explicit arguments, one per call site.
* The three KV namespace bindings are assumed configured (the deployed
  worker binds them); the `typeof X !== "undefined"` guards on bindings
  are therefore taken in their bound branch.  `SETUP_TOKEN` presence is
  kept explicit because the handlers branch on it.
-/

namespace PW

inductive Json where
  | jnull : Json
  | jbool : Bool → Json
  | jnum : Int → Json
  | jstr : String → Json
  | jarr : List Json → Json
  | jobj : List (String × Json) → Json

open Json

mutual
/-- Decidable equality on JSON values (the deriving handler does not
support this nested inductive). -/
def jsonDecEq : (a b : Json) → Decidable (a = b)
  | jnull, jnull => isTrue rfl
  | jbool a, jbool b =>
    match decEq a b with
    | isTrue h => isTrue (by rw [h])
    | isFalse h => isFalse (by intro hh; injection hh; contradiction)
  | jnum a, jnum b =>
    match decEq a b with
    | isTrue h => isTrue (by rw [h])
    | isFalse h => isFalse (by intro hh; injection hh; contradiction)
  | jstr a, jstr b =>
    match decEq a b with
    | isTrue h => isTrue (by rw [h])
    | isFalse h => isFalse (by intro hh; injection hh; contradiction)
  | jarr xs, jarr ys =>
    match jsonListDecEq xs ys with
    | isTrue h => isTrue (by rw [h])
    | isFalse h => isFalse (by intro hh; injection hh; contradiction)
  | jobj xs, jobj ys =>
    match jsonFieldsDecEq xs ys with
    | isTrue h => isTrue (by rw [h])
    | isFalse h => isFalse (by intro hh; injection hh; contradiction)
  | jnull, jbool _ => isFalse fun h => nomatch h
  | jnull, jnum _ => isFalse fun h => nomatch h
  | jnull, jstr _ => isFalse fun h => nomatch h
  | jnull, jarr _ => isFalse fun h => nomatch h
  | jnull, jobj _ => isFalse fun h => nomatch h
  | jbool _, jnull => isFalse fun h => nomatch h
  | jbool _, jnum _ => isFalse fun h => nomatch h
  | jbool _, jstr _ => isFalse fun h => nomatch h
  | jbool _, jarr _ => isFalse fun h => nomatch h
  | jbool _, jobj _ => isFalse fun h => nomatch h
  | jnum _, jnull => isFalse fun h => nomatch h
  | jnum _, jbool _ => isFalse fun h => nomatch h
  | jnum _, jstr _ => isFalse fun h => nomatch h
  | jnum _, jarr _ => isFalse fun h => nomatch h
  | jnum _, jobj _ => isFalse fun h => nomatch h
  | jstr _, jnull => isFalse fun h => nomatch h
  | jstr _, jbool _ => isFalse fun h => nomatch h
  | jstr _, jnum _ => isFalse fun h => nomatch h
  | jstr _, jarr _ => isFalse fun h => nomatch h
  | jstr _, jobj _ => isFalse fun h => nomatch h
  | jarr _, jnull => isFalse fun h => nomatch h
  | jarr _, jbool _ => isFalse fun h => nomatch h
  | jarr _, jnum _ => isFalse fun h => nomatch h
  | jarr _, jstr _ => isFalse fun h => nomatch h
  | jarr _, jobj _ => isFalse fun h => nomatch h
  | jobj _, jnull => isFalse fun h => nomatch h
  | jobj _, jbool _ => isFalse fun h => nomatch h
  | jobj _, jnum _ => isFalse fun h => nomatch h
  | jobj _, jstr _ => isFalse fun h => nomatch h
  | jobj _, jarr _ => isFalse fun h => nomatch h

/-- Decidable equality on JSON lists. -/
def jsonListDecEq : (a b : List Json) → Decidable (a = b)
  | [], [] => isTrue rfl
  | [], _ :: _ => isFalse fun h => nomatch h
  | _ :: _, [] => isFalse fun h => nomatch h
  | x :: xs, y :: ys =>
    match jsonDecEq x y with
    | isTrue h1 =>
      match jsonListDecEq xs ys with
      | isTrue h2 => isTrue (by rw [h1, h2])
      | isFalse h2 => isFalse (by intro hh; injection hh; contradiction)
    | isFalse h1 => isFalse (by intro hh; injection hh; contradiction)

/-- Decidable equality on JSON field lists. -/
def jsonFieldsDecEq : (a b : List (String × Json)) → Decidable (a = b)
  | [], [] => isTrue rfl
  | [], _ :: _ => isFalse fun h => nomatch h
  | _ :: _, [] => isFalse fun h => nomatch h
  | (k1, v1) :: xs, (k2, v2) :: ys =>
    match decEq k1 k2 with
    | isTrue hk =>
      match jsonDecEq v1 v2 with
      | isTrue h1 =>
        match jsonFieldsDecEq xs ys with
        | isTrue h2 => isTrue (by rw [hk, h1, h2])
        | isFalse h2 => isFalse (by intro hh; injection hh; contradiction)
      | isFalse h1 => isFalse (by
          intro hh; injection hh with hp hr
          exact h1 (congrArg Prod.snd hp))
    | isFalse hk => isFalse (by
        intro hh; injection hh with hp hr
        exact hk (congrArg Prod.fst hp))
end

instance : DecidableEq Json := jsonDecEq

/-- Association-list lookup, first binding wins (keys are kept unique by
`putAL`). -/
def getAL {V : Type} : List (String × V) → String → Option V
  | [], _ => none
  | (k0, v0) :: rest, k => if k0 = k then some v0 else getAL rest k

/-- Association-list write with overwrite-in-place semantics: an existing
binding keeps its position (JavaScript property order / KV put). -/
def putAL {V : Type} : List (String × V) → String → V → List (String × V)
  | [], k, v => [(k, v)]
  | (k0, v0) :: rest, k, v =>
    if k0 = k then (k0, v) :: rest else (k0, v0) :: putAL rest k v

/-- The secrets namespace holds raw strings (secret values, stringified
token blobs). -/
abbrev SecretsStore := List (String × String)

/-- The sessions namespace holds structured JSON records (kvPut stores
JSON.stringify of the record, kvGet parses it back; parse after
stringify is the identity on these records, so the store is modelled at
the level of `Json` values). -/
abbrev SessionsStore := List (String × Json)

/-- The audit namespace, same convention as the sessions namespace. -/
abbrev AuditStore := List (String × Json)

/-- The three KV namespaces bound to the worker. -/
structure Stores where
  secrets : SecretsStore
  sessions : SessionsStore
  audit : AuditStore
deriving DecidableEq

/-- JavaScript truthiness of a JSON value. -/
def jsTruthy : Json → Bool
  | jnull => false
  | jbool b => b
  | jnum n => if n = 0 then false else true
  | jstr s => if s = "" then false else true
  | jarr _ => true
  | jobj _ => true

/-- Property read `v.k`: `some` on an object field, `none` (undefined)
otherwise. -/
def jsGet : Json → String → Option Json
  | jobj fs, k => getAL fs k
  | _, _ => none

/-- Truthiness of a possibly-undefined value. -/
def truthyO : Option Json → Bool
  | some v => jsTruthy v
  | none => false

/-- Truthiness of a nullable string (KV get result). -/
def truthyS : Option String → Bool
  | some s => if s = "" then false else true
  | none => false

/-- Whether `typeof v === "object"` holds (null, arrays and objects). -/
def jsObjType : Json → Bool
  | jnull => true
  | jarr _ => true
  | jobj _ => true
  | _ => false

/-- Own enumerable string-keyed entries, as `Object.entries` /
`Object.assign` enumerate them: object fields, array indices, string
indices; none for primitives. -/
def ownEntries : Json → List (String × Json)
  | jobj fs => fs
  | jarr xs => xs.enum.map (fun p => (toString p.1, p.2))
  | jstr s => s.data.enum.map (fun p => (toString p.1, jstr ⟨[p.2]⟩))
  | _ => []

mutual
/-- JavaScript `String(v)` coercion. -/
def jsString : Json → String
  | jnull => "null"
  | jbool true => "true"
  | jbool false => "false"
  | jnum n => toString n
  | jstr s => s
  | jarr xs => jsArrString xs
  | jobj _ => "[object Object]"

/-- Array.prototype.toString: elements joined with commas, null elements
rendered empty. -/
def jsArrString : List Json → String
  | [] => ""
  | [v] => (match v with | jnull => "" | w => jsString w)
  | v :: rest =>
    (match v with | jnull => "" | w => jsString w) ++ "," ++ jsArrString rest
end

/-- One escaped character of a JSON string literal. -/
def escChar (c : Char) : String :=
  if c = '"' then "\\\"" else if c = '\\' then "\\\\" else ⟨[c]⟩

/-- Escape the characters of a JSON string body. -/
def escList : List Char → String
  | [] => ""
  | c :: rest => escChar c ++ escList rest

/-- A JSON string literal. -/
def quoteStr (s : String) : String := "\"" ++ escList s.data ++ "\""

mutual
/-- Compact JSON.stringify of a value. -/
def stringify : Json → String
  | jnull => "null"
  | jbool true => "true"
  | jbool false => "false"
  | jnum n => toString n
  | jstr s => quoteStr s
  | jarr xs => "[" ++ stringifyArr xs ++ "]"
  | jobj fs => "\x7b" ++ stringifyObj fs ++ "\x7d"

/-- Comma-joined stringified array elements. -/
def stringifyArr : List Json → String
  | [] => ""
  | [v] => stringify v
  | v :: rest => stringify v ++ "," ++ stringifyArr rest

/-- Comma-joined stringified object fields. -/
def stringifyObj : List (String × Json) → String
  | [] => ""
  | [(k, v)] => quoteStr k ++ ":" ++ stringify v
  | (k, v) :: rest => quoteStr k ++ ":" ++ stringify v ++ "," ++ stringifyObj rest
end

/-- An HTTP response: a JSON body with a status, a redirect, or an HTML
page. -/
inductive Resp where
  | jsonR : Nat → Json → Resp
  | redirectR : Nat → String → Resp
  | htmlR : String → Resp
deriving DecidableEq

/-- HTTP status of a response (an HTML `new Response` defaults to 200). -/
def statusOf : Resp → Nat
  | .jsonR s _ => s
  | .redirectR s _ => s
  | .htmlR _ => 200

/-- The uniform JSON error envelope. -/
def errJson (msg : String) : Json := jobj [("error", jstr msg)]

/-- Hexadecimal digit (uppercase, as percent-encoders emit). -/
def hexDigit (n : Nat) : Char :=
  if n < 10 then Char.ofNat (48 + n) else Char.ofNat (55 + n)

/-- A percent-encoded byte. -/
def byteHex (b : Nat) : String := ⟨['%', hexDigit (b / 16), hexDigit (b % 16)]⟩

/-- UTF-8 bytes of a character, from its codepoint. -/
def utf8Bytes (c : Char) : List Nat :=
  let n := c.toNat
  if n < 128 then [n]
  else if n < 2048 then [192 + n / 64, 128 + n % 64]
  else if n < 65536 then [224 + n / 4096, 128 + n / 64 % 64, 128 + n % 64]
  else [240 + n / 262144, 128 + n / 4096 % 64, 128 + n / 64 % 64, 128 + n % 64]

/-- Characters encodeURIComponent leaves as-is: alphanumerics and
`- _ . ! ~ * ( )` and the apostrophe (codepoint 39). -/
def uriUnreserved (n : Nat) : Bool :=
  (65 ≤ n && n ≤ 90) || (97 ≤ n && n ≤ 122) || (48 ≤ n && n ≤ 57) ||
  n == 45 || n == 95 || n == 46 || n == 33 || n == 126 || n == 42 ||
  n == 39 || n == 40 || n == 41

/-- JavaScript encodeURIComponent. -/
def encodeURIComponent (s : String) : String :=
  String.join (s.data.map (fun c =>
    if uriUnreserved c.toNat then ⟨[c]⟩
    else String.join ((utf8Bytes c).map byteHex)))

/-- Characters the application/x-www-form-urlencoded serializer leaves
as-is: alphanumerics and `* - . _`. -/
def formUnreserved (n : Nat) : Bool :=
  (65 ≤ n && n ≤ 90) || (97 ≤ n && n ≤ 122) || (48 ≤ n && n ≤ 57) ||
  n == 42 || n == 45 || n == 46 || n == 95

/-- One form-urlencoded component (URLSearchParams serialization of a
name or value): space becomes `+`, other reserved bytes are
percent-encoded. -/
def formEncode (s : String) : String :=
  String.join (s.data.map (fun c =>
    if c.toNat == 32 then "+"
    else if formUnreserved c.toNat then ⟨[c]⟩
    else String.join ((utf8Bytes c).map byteHex)))

/-- URLSearchParams.toString: `k=v` pairs joined with ampersands, both
sides form-encoded, in insertion order. -/
def formSerialize (ps : List (String × String)) : String :=
  String.intercalate "&" (ps.map (fun p => formEncode p.1 ++ "=" ++ formEncode p.2))

/-- ASCII uppercase of a string (String.prototype.toUpperCase on the
ASCII provider names this system uses). -/
def upperStr (s : String) : String := ⟨s.data.map Char.toUpper⟩

/-- ASCII lowercase of a string. -/
def lowerStr (s : String) : String := ⟨s.data.map Char.toLower⟩

/-- The fixed administrative identity (const ADMIN_HANDLE, default
branch). -/
def ADMIN_HANDLE : String := "Keli"

/-- Lexicographic order on character lists by codepoint; the order
Cloudflare KV lists keys in (UTF-8 byte order coincides with codepoint
order). -/
def charListLe : List Char → List Char → Bool
  | [], _ => true
  | _ :: _, [] => false
  | a :: as, b :: bs =>
    if a.toNat < b.toNat then true
    else if b.toNat < a.toNat then false
    else charListLe as bs

theorem charListLe_cons_iff (x y : Char) (xs ys : List Char) :
    charListLe (x :: xs) (y :: ys) = true ↔
      (x.toNat < y.toNat ∨ (x.toNat = y.toNat ∧ charListLe xs ys = true)) := by
  simp only [charListLe]
  by_cases h1 : x.toNat < y.toNat
  · simp [h1]
  · by_cases h2 : y.toNat < x.toNat
    · simp [h1, h2]; omega
    · have he : x.toNat = y.toNat := by omega
      simp [h1, h2, he]

theorem charListLe_total (a b : List Char) :
    charListLe a b = true ∨ charListLe b a = true := by
  induction a generalizing b with
  | nil => exact Or.inl rfl
  | cons x xs ih =>
    cases b with
    | nil => exact Or.inr rfl
    | cons y ys =>
      rw [charListLe_cons_iff, charListLe_cons_iff]
      rcases Nat.lt_trichotomy x.toNat y.toNat with h | h | h
      · exact Or.inl (Or.inl h)
      · rcases ih ys with h2 | h2
        · exact Or.inl (Or.inr ⟨h, h2⟩)
        · exact Or.inr (Or.inr ⟨h.symm, h2⟩)
      · exact Or.inr (Or.inl h)

theorem charListLe_trans (a b c : List Char) (h1 : charListLe a b = true)
    (h2 : charListLe b c = true) : charListLe a c = true := by
  induction a generalizing b c with
  | nil => rfl
  | cons x xs ih =>
    cases b with
    | nil => exact absurd h1 (by simp [charListLe])
    | cons y ys =>
      cases c with
      | nil => exact absurd h2 (by simp [charListLe])
      | cons z zs =>
        rw [charListLe_cons_iff] at h1 h2 ⊢
        rcases h1 with h1 | ⟨e1, r1⟩
        · rcases h2 with h2 | ⟨e2, r2⟩
          · exact Or.inl (Nat.lt_trans h1 h2)
          · exact Or.inl (by omega)
        · rcases h2 with h2 | ⟨e2, r2⟩
          · exact Or.inl (by omega)
          · exact Or.inr ⟨by omega, ih ys zs r1 r2⟩

/-- Key order on store entries: lexicographic order of the key strings. -/
def keyLeB (p q : String × Json) : Bool := charListLe p.1.data q.1.data

/-- The key order as a relation, for the sorting lemmas. -/
def keyRel (p q : String × Json) : Prop := keyLeB p q = true

instance : DecidableRel keyRel :=
  fun p q => inferInstanceAs (Decidable (keyLeB p q = true))

instance : IsTotal (String × Json) keyRel :=
  ⟨fun p q => charListLe_total p.1.data q.1.data⟩

instance : IsTrans (String × Json) keyRel :=
  ⟨fun a b c => charListLe_trans a.1.data b.1.data c.1.data⟩

/-- Whether the first character list starts the second. -/
def hasPref : List Char → List Char → Bool
  | [], _ => true
  | _ :: _, [] => false
  | a :: as, b :: bs => a = b && hasPref as bs

/-- Whether string `p` is an initial segment of string `s` (the KV list
prefix filter). -/
def strHasPref (p s : String) : Bool := hasPref p.data s.data

/-- The entries of the audit namespace under the `audit:` prefix, as the
KV list filter selects them. -/
def auditEntriesOf (audit : AuditStore) : List (String × Json) :=
  audit.filter (fun p => strHasPref "audit:" p.1)

namespace W2

/-- Reads a named secret from the secrets namespace (getSecret, lines
469-473). -/
def getSecret (secrets : SecretsStore) (name : String) : Option String :=
  getAL secrets ("secret:" ++ name)

/-- makeSessionId (lines 485-488); the time and random parts are passed
in. -/
def makeSessionId (tPart rPart : String) : String :=
  "sess_" ++ tPart ++ "_" ++ rPart

/-- The payload guard of handleStoreSecrets (line 526):
`!body || !body.secrets || typeof body.secrets !== "object"`. -/
def badPayload (body : Json) : Bool :=
  !jsTruthy body || !truthyO (jsGet body "secrets") ||
    !(match jsGet body "secrets" with
      | some v => jsObjType v
      | none => false)

/-- handleStoreSecrets (lines 517-539).  `setupTokenCfg` is the
SETUP_TOKEN binding (`none` when undefined), `provided` the
x-setup-token header (empty string when absent, mirroring `|| ""`),
`bodyP` the parsed JSON body (`none` when parsing threw), `auditKey` and
`now` the request-scoped audit key and timestamp. -/
def handleStoreSecrets (setupTokenCfg : Option String) (provided : String)
    (bodyP : Option Json) (auditKey now : String) (st : Stores) :
    Resp × Stores :=
  if provided = "" then (.jsonR 401 (errJson "missing setup token"), st)
  else if setupTokenCfg = none ∨ setupTokenCfg = some "" then
    (.jsonR 500 (errJson "worker not configured with SETUP_TOKEN"), st)
  else if some provided ≠ setupTokenCfg then
    (.jsonR 403 (errJson "invalid setup token"), st)
  else
    match bodyP with
    | none => (.jsonR 400 (errJson "invalid json"), st)
    | some body =>
      if badPayload body then
        (.jsonR 400 (errJson "invalid payload: \x7bsecrets:\x7b...\x7d\x7d expected"), st)
      else
        let entries := ownEntries ((jsGet body "secrets").getD .jnull)
        let secrets2 := entries.foldl
          (fun s p => putAL s ("secret:" ++ p.1) (jsString p.2)) st.secrets
        let stored := entries.map (fun p => p.1)
        let entry := Json.jobj [("time", .jstr now), ("admin", .jstr ADMIN_HANDLE),
          ("event", .jstr "store_secrets"),
          ("details", .jobj [("stored", .jarr (stored.map .jstr))])]
        let audit2 := putAL st.audit auditKey entry
        (.jsonR 200 (.jobj [("ok", .jbool true), ("stored", .jarr (stored.map .jstr))]),
          ⟨secrets2, st.sessions, audit2⟩)

/-- handleOAuthInit (lines 541-561).  `providerP` is the provider query
parameter (`none` when absent), `state` the generated random state
token, `now` the creation timestamp. -/
def handleOAuthInit (providerP : Option String) (state now : String)
    (st : Stores) : Resp × Stores :=
  let provider := providerP.getD ""
  if provider = "" then (.jsonR 400 (errJson "missing provider param"), st)
  else
    let clientId := getSecret st.secrets ("OAUTH_" ++ upperStr provider ++ "_CLIENT_ID")
    let authUrl := getSecret st.secrets ("OAUTH_" ++ upperStr provider ++ "_AUTH_URL")
    let redirect := getSecret st.secrets "OAUTH_REDIRECT_URI"
    if !truthyS clientId || !truthyS authUrl || !truthyS redirect then
      (.jsonR 400 (errJson "OAuth info missing for provider."), st)
    else
      let sessions2 := putAL st.sessions ("oauth_state:" ++ state)
        (.jobj [("provider", .jstr provider), ("created_at", .jstr now)])
      let scope := (getSecret st.secrets ("OAUTH_" ++ upperStr provider ++ "_SCOPE")).getD ""
      let ps := [("response_type", "code"), ("client_id", clientId.getD ""),
          ("redirect_uri", redirect.getD "")] ++
        (if scope = "" then [] else [("scope", scope)]) ++ [("state", state)]
      (.redirectR 302 ((authUrl.getD "") ++ "?" ++ formSerialize ps),
        { st with sessions := sessions2 })

/-- Result of the OAuth callback: the response, the stores after the
call, and the request posted to the token endpoint if one was sent
(token URL and form-encoded body). -/
structure CbOut where
  resp : Resp
  st : Stores
  sent : Option (String × String)
deriving DecidableEq

/-- handleOAuthCallback (lines 563-593).  `fetchOk` and `tokenResp`
stand for the provider's answer to the token-exchange fetch (`r.ok` and
the parsed body). -/
def handleOAuthCallback (code state : String) (fetchOk : Bool)
    (tokenResp : Json) (now auditKey : String) (st : Stores) : CbOut :=
  if code = "" ∨ state = "" then
    ⟨.jsonR 400 (errJson "missing code or state"), st, none⟩
  else
    match getAL st.sessions ("oauth_state:" ++ state) with
    | none => ⟨.jsonR 400 (errJson "invalid or expired state"), st, none⟩
    | some stateObj =>
      match jsGet stateObj "provider" with
      | some (.jstr provider) =>
        let tokenUrl := getSecret st.secrets ("OAUTH_" ++ upperStr provider ++ "_TOKEN_URL")
        let clientId := getSecret st.secrets ("OAUTH_" ++ upperStr provider ++ "_CLIENT_ID")
        let clientSecret := getSecret st.secrets ("OAUTH_" ++ upperStr provider ++ "_CLIENT_SECRET")
        let redirect := getSecret st.secrets "OAUTH_REDIRECT_URI"
        if !truthyS tokenUrl || !truthyS clientId then
          ⟨.jsonR 500 (errJson "token configuration missing for provider"), st, none⟩
        else
          let ps := [("grant_type", "authorization_code"), ("code", code),
              ("redirect_uri", redirect.getD "null"), ("client_id", clientId.getD "")] ++
            (if truthyS clientSecret then [("client_secret", clientSecret.getD "")] else [])
          let sent := some (tokenUrl.getD "", formSerialize ps)
          if fetchOk then
            let secrets2 := putAL st.secrets
              ("secret:oauth:" ++ lowerStr provider ++ ":token") (stringify tokenResp)
            let audit2 := putAL st.audit auditKey
              (.jobj [("time", .jstr now), ("admin", .jstr ADMIN_HANDLE),
                ("event", .jstr "oauth_connected"),
                ("details", .jobj [("provider", .jstr provider)])])
            ⟨.htmlR ("<html><body><h2>Connected " ++ provider ++
                "</h2><p>Close this window and return to your admin console.</p></body></html>"),
              ⟨secrets2, st.sessions, audit2⟩, sent⟩
          else
            ⟨.jsonR 500 (.jobj [("error", .jstr "token exchange failed"),
              ("detail", tokenResp)]), st, sent⟩
      | _ =>
        -- a state record without a string provider makes
        -- provider.toUpperCase() throw; the router catch yields a 500
        ⟨.jsonR 500 (errJson "TypeError"), st, none⟩

/-- handleCreateCheckout (lines 606-625).  `tPart`/`rPart` feed
makeSessionId; `now1..now4` are the four `new Date().toISOString()`
call sites in program order; `k1`/`k2` the generated audit keys. -/
def handleCreateCheckout (body : Json) (tPart rPart : String)
    (now1 now2 now3 now4 : String) (k1 k2 : String) (st : Stores) :
    Resp × Stores :=
  if !jsTruthy body || !truthyO (jsGet body "sku") then
    (.jsonR 400 (errJson "missing sku"), st)
  else
    let session_id := makeSessionId tPart rPart
    let skuV := (jsGet body "sku").getD .jnull
    let userV := match jsGet body "user" with
      | some v => if jsTruthy v then v else .jnull
      | none => .jnull
    let manifestV := match jsGet body "manifest" with
      | some v => if jsTruthy v then v else .jobj []
      | none => .jobj []
    let presold := truthyO (jsGet body "presold")
    let fields0 : List (String × Json) := [("session_id", .jstr session_id),
      ("sku", skuV), ("user", userV), ("manifest", manifestV),
      ("presold", .jbool presold), ("status", .jstr "pending"),
      ("created_at", .jstr now1)]
    let sessions1 := putAL st.sessions ("session:" ++ session_id) (.jobj fields0)
    let audit1 := putAL st.audit k1 (.jobj [("time", .jstr now2),
      ("admin", .jstr ADMIN_HANDLE), ("event", .jstr "create_checkout"),
      ("details", .jobj [("session_id", .jstr session_id), ("sku", skuV),
        ("presold", .jbool presold)])])
    if presold then
      let deliver := Json.jobj
        [("proton_link", .jstr ("https://proton.me/s/" ++ encodeURIComponent session_id))]
      let fields2 := putAL (putAL (putAL fields0 "status" (.jstr "delivered"))
        "delivered_at" (.jstr now3)) "delivery" deliver
      let sessions2 := putAL sessions1 ("session:" ++ session_id) (.jobj fields2)
      let audit2 := putAL audit1 k2 (.jobj [("time", .jstr now4),
        ("admin", .jstr ADMIN_HANDLE), ("event", .jstr "auto_deliver_presold"),
        ("details", .jobj [("session_id", .jstr session_id)])])
      (.jsonR 200 (.jobj [("ok", .jbool true), ("session_id", .jstr session_id),
        ("deliver", deliver)]), ⟨st.secrets, sessions2, audit2⟩)
    else
      (.jsonR 200 (.jobj [("ok", .jbool true), ("session_id", .jstr session_id)]),
        ⟨st.secrets, sessions1, audit1⟩)

/-- handleDeliver (lines 627-641).  `nowD`/`nowA` are the two timestamp
call sites of the lazy-resolution path, `auditKey` its audit key. -/
def handleDeliver (session_id : String) (nowD nowA auditKey : String)
    (st : Stores) : Resp × Stores :=
  if session_id = "" then (.jsonR 400 (errJson "missing session_id"), st)
  else
    match getAL st.sessions ("session:" ++ session_id) with
    | none => (.jsonR 404 (errJson "session not found"), st)
    | some session =>
      if !truthyO (jsGet session "delivery") then
        let deliver := Json.jobj
          [("proton_link", .jstr ("https://proton.me/s/" ++ encodeURIComponent session_id))]
        let fields2 := putAL (putAL (putAL (ownEntries session) "delivery" deliver)
          "status" (.jstr "delivered")) "delivered_at" (.jstr nowD)
        let sessions2 := putAL st.sessions ("session:" ++ session_id) (.jobj fields2)
        let audit2 := putAL st.audit auditKey (.jobj [("time", .jstr nowA),
          ("admin", .jstr ADMIN_HANDLE), ("event", .jstr "deliver_resolved"),
          ("details", .jobj [("session_id", .jstr session_id)])])
        (.jsonR 200 (.jobj [("ok", .jbool true), ("session_id", .jstr session_id),
          ("deliver", deliver)]), ⟨st.secrets, sessions2, audit2⟩)
      else
        (.jsonR 200 (.jobj [("ok", .jbool true), ("session_id", .jstr session_id),
          ("deliver", (jsGet session "delivery").getD .jnull)]), st)

/-- handleAuditPost (lines 643-648): the stored and echoed entry is
`Object.assign({}, body, {admin: ADMIN_HANDLE, received_at: now})`. -/
def handleAuditPost (body : Json) (now auditKey : String) (st : Stores) :
    Resp × Stores :=
  let entry := Json.jobj (putAL (putAL
    ((ownEntries body).foldl (fun acc p => putAL acc p.1 p.2) [])
    "admin" (.jstr ADMIN_HANDLE)) "received_at" (.jstr now))
  let audit2 := putAL st.audit auditKey entry
  (.jsonR 200 (.jobj [("ok", .jbool true), ("entry", entry)]),
    { st with audit := audit2 })

/-- A JavaScript Promise holding what it would resolve to.
Promise.prototype has neither Symbol.asyncIterator nor Symbol.iterator:
a promise is not an iterable value. -/
structure JsPromise (α : Type) where
  resolvesTo : α

/-- The GetIterator step a for-await-of statement performs on its
operand, applied to a promise: since a promise is neither async
iterable nor sync iterable, the step throws TypeError (it never reaches
the promise's resolved value). -/
def getAsyncIterator {α : Type} (_p : JsPromise α) : Except String α :=
  .error "TypeError"

/-- handleListAudits (lines 650-658).  The source runs
`for await (const item of AUDIT_KV.list({prefix: "audit:", limit: 200}))`:
AUDIT_KV.list returns a Promise (of a listing with at most 200 keys in
ascending lexicographic order), and for-await-of's GetIterator step on
that Promise throws TypeError before any iteration, so the async
handler rejects and the router catch (line 513) answers a 500 error
envelope on every call.  The ok branch below transcribes the loop body
and final response as written (fetch each listed value, reverse the
page); it is as unreachable as the source's loop body. -/
def handleListAudits (audit : AuditStore) : Resp :=
  let listing : JsPromise (List (String × Json)) :=
    ⟨(List.insertionSort keyRel (auditEntriesOf audit)).take 200⟩
  match getAsyncIterator listing with
  | .error msg => .jsonR 500 (errJson msg)
  | .ok page =>
    let logs := (page.map (fun p => p.2)).reverse
    .jsonR 200 (.jobj [("ok", .jbool true), ("count", .jnum (logs.length : Int)),
      ("logs", .jarr logs)])

end W2

namespace W1

/-- The secret-writing loop of the first scaffold's handleStoreSecrets
(lines 117-119), with a failure oracle: `failAt = some i` makes the put
of the i-th entry throw, aborting the batch with the store as written so
far. -/
def writeBatch : List (String × String) → Option Nat → SecretsStore →
    Bool × SecretsStore
  | [], _, s => (true, s)
  | _ :: _, some 0, s => (false, s)
  | (k, v) :: rest, some (n + 1), s =>
    writeBatch rest (some n) (putAL s ("secret_" ++ k) v)
  | (k, v) :: rest, none, s =>
    writeBatch rest none (putAL s ("secret_" ++ k) v)

/-- handleStoreSecrets of the first scaffold (lines 94-134): setup-token
check, one-time flag check, per-secret writes, flag write, audit write.
A mid-batch put failure propagates to the router catch, which answers
500 with the error message (modelled by a fixed message). -/
def handleStoreSecrets (SETUP_TOKEN : String) (setupToken : Option String)
    (secrets : List (String × String)) (failAt : Option Nat)
    (uuid nowIso : String) (st : Stores) : Resp × Stores :=
  let provided := setupToken.getD ""
  if provided = "" ∨ provided ≠ SETUP_TOKEN then
    (.jsonR 403 (errJson "Invalid setup token"), st)
  else if getAL st.secrets "secrets_initialized" = some "true" then
    (.jsonR 403 (errJson "Secrets already initialized"), st)
  else
    let r := writeBatch secrets failAt st.secrets
    if r.1 then
      let withFlag := putAL r.2 "secrets_initialized" "true"
      let audit2 := putAL st.audit ("audit_" ++ uuid)
        (.jobj [("admin", .jstr "Keli"), ("action", .jstr "secrets_stored"),
          ("details", .jstr "System secrets initialized"),
          ("timestamp", .jstr nowIso)])
      (.jsonR 200 (.jobj [("success", .jbool true),
        ("message", .jstr "Secrets stored successfully")]),
        ⟨withFlag, st.sessions, audit2⟩)
    else
      (.jsonR 500 (errJson "KV put failed"), { st with secrets := r.2 })

end W1

/-! ### Store and string lemmas -/

theorem getAL_putAL_self {V : Type} (s : List (String × V)) (k : String) (v : V) :
    getAL (putAL s k v) k = some v := by
  induction s with
  | nil => simp [putAL, getAL]
  | cons p rest ih =>
    obtain ⟨k0, v0⟩ := p
    by_cases h : k0 = k
    · simp [putAL, getAL, h]
    · simp [putAL, getAL, h, ih]

theorem getAL_putAL_ne {V : Type} (s : List (String × V)) (k k2 : String)
    (v : V) (h : k2 ≠ k) : getAL (putAL s k v) k2 = getAL s k2 := by
  induction s with
  | nil => simp [putAL, getAL, Ne.symm h]
  | cons p rest ih =>
    obtain ⟨k0, v0⟩ := p
    by_cases h0 : k0 = k
    · subst h0
      simp [putAL, getAL, Ne.symm h]
    · simp [putAL, getAL, h0, ih]

/-- Two strings with distinct same-length beginnings are distinct,
whatever follows. -/
theorem strPref_ne (a b x y : String) (hlen : a.data.length = b.data.length)
    (hne : a.data ≠ b.data) : a ++ x ≠ b ++ y := by
  intro h
  have hd := congrArg String.data h
  rw [String.data_append, String.data_append] at hd
  exact hne (List.append_inj hd hlen).1

/-- A per-secret record key of the first scaffold never collides with
the initialization flag key. -/
theorem secretKey_ne_flag (k : String) : "secret_" ++ k ≠ "secrets_initialized" := by
  have h2 : ("secrets_initialized" : String) = "secrets" ++ "_initialized" := by decide
  rw [h2]
  exact strPref_ne "secret_" "secrets" k "_initialized" (by decide) (by decide)

/-! ### Claims -/

theorem writeBatch_flag (entries : List (String × String)) (failAt : Option Nat)
    (s : SecretsStore) :
    getAL (W1.writeBatch entries failAt s).2 "secrets_initialized"
      = getAL s "secrets_initialized" := by
  induction entries generalizing failAt s with
  | nil => rfl
  | cons p rest ih =>
    obtain ⟨k, v⟩ := p
    match failAt with
    | some 0 => rfl
    | some (n + 1) =>
      rw [W1.writeBatch, ih]
      exact getAL_putAL_ne _ _ _ _ (secretKey_ne_flag k).symm
    | none =>
      rw [W1.writeBatch, ih]
      exact getAL_putAL_ne _ _ _ _ (secretKey_ne_flag k).symm

theorem writeBatch_fails (entries : List (String × String)) (i : Nat)
    (s : SecretsStore) (hi : i < entries.length) :
    (W1.writeBatch entries (some i) s).1 = false := by
  induction entries generalizing i s with
  | nil => exact absurd hi (by simp)
  | cons p rest ih =>
    obtain ⟨k, v⟩ := p
    match i with
    | 0 => rfl
    | n + 1 => exact ih n _ (by simpa using hi)

theorem writeBatch_all (entries : List (String × String)) (s : SecretsStore) :
    (W1.writeBatch entries none s).1 = true := by
  induction entries generalizing s with
  | nil => rfl
  | cons p rest ih =>
    obtain ⟨k, v⟩ := p
    exact ih _

theorem truthy_of_jsGet (b : Json) (k : String)
    (h : truthyO (jsGet b k) = true) : jsTruthy b = true := by
  cases b <;> simp [jsGet, truthyO, jsTruthy] at h ⊢

theorem makeSessionId_ne_empty (t r : String) : W2.makeSessionId t r ≠ "" := by
  intro h
  have hd := congrArg String.data h
  rw [W2.makeSessionId] at hd
  simp [String.data_append] at hd

/-- C7.  In the flag-guarded initializeSecrets (worker.js lines
94-134), all individual secret writes happen before the initialization
flag write: when the put of the i-th secret fails mid-batch, the call
answers 500, the flag key is untouched (no written secret key collides
with it), and a retried call on the resulting stores succeeds with
200. -/
theorem C7_writes_before_flag (tok : String) (secrets : List (String × String))
    (i : Nat) (uuid nowIso uuid2 nowIso2 : String) (st : Stores)
    (htok : tok ≠ "")
    (hflag : ¬ getAL st.secrets "secrets_initialized" = some "true")
    (hi : i < secrets.length) :
    statusOf (W1.handleStoreSecrets tok (some tok) secrets (some i) uuid nowIso st).1 = 500 ∧
    getAL (W1.handleStoreSecrets tok (some tok) secrets (some i) uuid nowIso st).2.secrets
        "secrets_initialized"
      = getAL st.secrets "secrets_initialized" ∧
    statusOf (W1.handleStoreSecrets tok (some tok) secrets none uuid2 nowIso2
        (W1.handleStoreSecrets tok (some tok) secrets (some i) uuid nowIso st).2).1 = 200 := by
  have hrun : W1.handleStoreSecrets tok (some tok) secrets (some i) uuid nowIso st
      = (.jsonR 500 (errJson "KV put failed"),
        { st with secrets := (W1.writeBatch secrets (some i) st.secrets).2 }) := by
    simp [W1.handleStoreSecrets, htok, hflag, writeBatch_fails secrets i st.secrets hi]
  refine ⟨by rw [hrun]; rfl, by rw [hrun]; exact writeBatch_flag _ _ _, ?_⟩
  rw [hrun]
  have hflag2 : ¬ getAL (W1.writeBatch secrets (some i) st.secrets).2
      "secrets_initialized" = some "true" := by
    rw [writeBatch_flag]; exact hflag
  simp [W1.handleStoreSecrets, statusOf, htok, hflag2, writeBatch_all]

/-- C7 witness: with two secrets and a failure at the second write, the
call fails with 500, the flag stays unset, and the retry answers
200. -/
theorem C7_writes_before_flag_witness :
    ("t" : String) ≠ "" ∧ (1 : Nat) < ([("a", "1"), ("b", "2")] : List (String × String)).length ∧
    statusOf (W1.handleStoreSecrets "t" (some "t") [("a", "1"), ("b", "2")] (some 1)
        "u" "n" ⟨[], [], []⟩).1 = 500 ∧
    getAL (W1.handleStoreSecrets "t" (some "t") [("a", "1"), ("b", "2")] (some 1)
        "u" "n" ⟨[], [], []⟩).2.secrets "secrets_initialized"
      = getAL ([] : SecretsStore) "secrets_initialized" ∧
    statusOf (W1.handleStoreSecrets "t" (some "t") [("a", "1"), ("b", "2")] none "u2" "n2"
        (W1.handleStoreSecrets "t" (some "t") [("a", "1"), ("b", "2")] (some 1)
          "u" "n" ⟨[], [], []⟩).2).1 = 200 :=
  ⟨by decide, by decide,
    C7_writes_before_flag "t" [("a", "1"), ("b", "2")] 1 "u" "n" "u2" "n2"
      ⟨[], [], []⟩ (by decide) (by decide) (by decide)⟩

/-- C2.  For every checkout created with a truthy presold flag, the
checkout response carries the delivery artifact inline, with its URL
built deterministically from the session id; a subsequent
resolveDelivery call on that session id returns a response equal — and
hence byte-identical under any serialization — to the checkout
response, and leaves the stores untouched (the stored artifact is
returned verbatim, no second artifact is generated). -/
theorem C2_presold_delivery_idempotent (body : Json) (tPart rPart : String)
    (now1 now2 now3 now4 k1 k2 nowD nowA dKey : String) (st : Stores)
    (hsku : truthyO (jsGet body "sku") = true)
    (hpre : truthyO (jsGet body "presold") = true) :
    (W2.handleCreateCheckout body tPart rPart now1 now2 now3 now4 k1 k2 st).1
      = .jsonR 200 (.jobj [("ok", .jbool true),
          ("session_id", .jstr (W2.makeSessionId tPart rPart)),
          ("deliver", .jobj [("proton_link", .jstr ("https://proton.me/s/"
            ++ encodeURIComponent (W2.makeSessionId tPart rPart)))])]) ∧
    W2.handleDeliver (W2.makeSessionId tPart rPart) nowD nowA dKey
        (W2.handleCreateCheckout body tPart rPart now1 now2 now3 now4 k1 k2 st).2
      = ((W2.handleCreateCheckout body tPart rPart now1 now2 now3 now4 k1 k2 st).1,
         (W2.handleCreateCheckout body tPart rPart now1 now2 now3 now4 k1 k2 st).2) := by
  cases body with
  | jnull => exact absurd hsku (by simp [jsGet, truthyO])
  | jbool b => exact absurd hsku (by simp [jsGet, truthyO])
  | jnum n => exact absurd hsku (by simp [jsGet, truthyO])
  | jstr s => exact absurd hsku (by simp [jsGet, truthyO])
  | jarr xs => exact absurd hsku (by simp [jsGet, truthyO])
  | jobj fs =>
    refine ⟨?_, ?_⟩
    · simp [W2.handleCreateCheckout, jsTruthy, hsku, hpre]
    · simp only [W2.handleCreateCheckout, jsTruthy, hsku, hpre, Bool.not_true,
        Bool.false_or, Bool.or_false, if_false, ite_false, Bool.not_false,
        ite_true, if_true]
      simp [W2.handleDeliver, makeSessionId_ne_empty tPart rPart,
        getAL_putAL_self, jsGet, truthyO, jsTruthy]

/-- C2 witness: a concrete presold checkout followed by resolveDelivery
on its session id. -/
theorem C2_presold_delivery_idempotent_witness :
    truthyO (jsGet (Json.jobj [("sku", .jstr "PWS-0001"), ("presold", .jbool true)]) "sku") = true ∧
    truthyO (jsGet (Json.jobj [("sku", .jstr "PWS-0001"), ("presold", .jbool true)]) "presold") = true ∧
    ((W2.handleCreateCheckout (.jobj [("sku", .jstr "PWS-0001"), ("presold", .jbool true)])
        "T" "R" "n1" "n2" "n3" "n4" "a1" "a2" ⟨[], [], []⟩).1
      = .jsonR 200 (.jobj [("ok", .jbool true), ("session_id", .jstr (W2.makeSessionId "T" "R")),
          ("deliver", .jobj [("proton_link", .jstr ("https://proton.me/s/"
            ++ encodeURIComponent (W2.makeSessionId "T" "R")))])]) ∧
      W2.handleDeliver (W2.makeSessionId "T" "R") "d1" "d2" "dk"
          (W2.handleCreateCheckout (.jobj [("sku", .jstr "PWS-0001"), ("presold", .jbool true)])
            "T" "R" "n1" "n2" "n3" "n4" "a1" "a2" ⟨[], [], []⟩).2
        = ((W2.handleCreateCheckout (.jobj [("sku", .jstr "PWS-0001"), ("presold", .jbool true)])
            "T" "R" "n1" "n2" "n3" "n4" "a1" "a2" ⟨[], [], []⟩).1,
           (W2.handleCreateCheckout (.jobj [("sku", .jstr "PWS-0001"), ("presold", .jbool true)])
            "T" "R" "n1" "n2" "n3" "n4" "a1" "a2" ⟨[], [], []⟩).2)) :=
  ⟨by decide, by decide,
    C2_presold_delivery_idempotent (.jobj [("sku", .jstr "PWS-0001"), ("presold", .jbool true)])
      "T" "R" "n1" "n2" "n3" "n4" "a1" "a2" "d1" "d2" "dk" ⟨[], [], []⟩
      (by decide) (by decide)⟩

/-- C1.  The claim says the first initializeSecrets call stores the keys
of S and returns their names, and that every later call fails with the
already-initialized Conflict kind because a one-time flag is set.  The
key-name-returning implementation (handleStoreSecrets, worker.js lines
517-539) never reads or writes any initialization flag: run twice from
an empty store with the same valid credential, both calls answer 200
with the stored key list, and the second call overwrites the secret
value — contradicting the repository's own one-time-setup documentation
(README-SOVEREIGN, Security Features: the endpoint "rejects further
attempts" after initialization). -/
theorem C1_second_setup_call_succeeds :
    (let st0 : Stores := ⟨[], [], []⟩
     let c1 := W2.handleStoreSecrets (some "tok") "tok"
       (some (.jobj [("secrets", .jobj [("A", .jstr "v1")])])) "k1" "t1" st0
     let c2 := W2.handleStoreSecrets (some "tok") "tok"
       (some (.jobj [("secrets", .jobj [("A", .jstr "v2")])])) "k2" "t2" c1.2
     c1.1 = .jsonR 200 (.jobj [("ok", .jbool true), ("stored", .jarr [.jstr "A"])]) ∧
     getAL c1.2.secrets "secret:A" = some "v1" ∧
     c2.1 = .jsonR 200 (.jobj [("ok", .jbool true), ("stored", .jarr [.jstr "A"])]) ∧
     getAL c2.2.secrets "secret:A" = some "v2") := by
  decide

/-- C10 counterexample.  The claim says every JSON body whose "secrets"
field is not object-valued is rejected with BadRequest and nothing is
written.  A body whose "secrets" field is an array passes the handler's
`typeof === "object"` check: the call answers 200 and stores the array
index as a secret key (`secret:0`). -/
theorem C10_array_secrets_accepted :
    (let r := W2.handleStoreSecrets (some "tok") "tok"
       (some (.jobj [("secrets", .jarr [.jstr "v"])])) "k1" "t1" ⟨[], [], []⟩
     statusOf r.1 = 200 ∧ ¬ statusOf r.1 = 400 ∧
     getAL r.2.secrets "secret:0" = some "v") := by
  decide

/-- C10 (amended).  With a valid setup credential, every parsed JSON
body that is falsy, or whose "secrets" field is missing, falsy, or not
of JavaScript object type (object or array — arrays pass the check and
their indices are stored as keys) is rejected with status 400 (invalid
payload) before any secret is written, leaving the stores unchanged; in
particular a secrets map supplied as the top-level body is rejected. -/
theorem C10_invalid_payload_rejected (tok provided : String) (body : Json)
    (auditKey now : String) (st : Stores)
    (hprov : provided ≠ "") (htok : tok ≠ "") (heq : provided = tok)
    (hbad : W2.badPayload body = true) :
    W2.handleStoreSecrets (some tok) provided (some body) auditKey now st
      = (.jsonR 400 (errJson "invalid payload: \x7bsecrets:\x7b...\x7d\x7d expected"), st) := by
  subst heq
  simp [W2.handleStoreSecrets, hprov, htok, hbad]

/-- C10 witness: a top-level secrets map (no "secrets" field) is
rejected with 400 and the stores stay empty. -/
theorem C10_invalid_payload_rejected_witness :
    W2.handleStoreSecrets (some "tok") "tok"
        (some (.jobj [("A", .jstr "v")])) "k" "t" ⟨[], [], []⟩
      = (.jsonR 400 (errJson "invalid payload: \x7bsecrets:\x7b...\x7d\x7d expected"),
        (⟨[], [], []⟩ : Stores)) :=
  C10_invalid_payload_rejected "tok" "tok" (.jobj [("A", .jstr "v")]) "k" "t"
    ⟨[], [], []⟩ (by decide) (by decide) rfl (by decide)

/-- C3.  For every request payload — including one carrying a different
"admin" value — the entry persisted by the audit append operation has
its admin field equal to the fixed administrative identity: the handler
builds the entry with Object.assign, writing the fixed identity last. -/
theorem C3_audit_admin_forced (body : Json) (now auditKey : String) (st : Stores) :
    ∃ fs, (W2.handleAuditPost body now auditKey st).2.audit
        = putAL st.audit auditKey (Json.jobj fs)
      ∧ getAL (W2.handleAuditPost body now auditKey st).2.audit auditKey
        = some (Json.jobj fs)
      ∧ getAL fs "admin" = some (Json.jstr ADMIN_HANDLE) := by
  refine ⟨_, rfl, getAL_putAL_self _ _ _, ?_⟩
  rw [getAL_putAL_ne _ _ _ _ (by decide)]
  exact getAL_putAL_self _ _ _

/-- C6.  initiate(provider) with a non-empty provider fails with
BadRequest (400) when the provider configuration (client id,
authorization endpoint, redirect target) is incomplete, leaving the
stores unchanged; with complete configuration it persists
{provider, created_at} under the supplied fresh state token and answers
a 302 redirect assembled from response_type=code, the client id, the
redirect target, the optional scope, and exactly that state token. -/
theorem C6_oauth_init_contract (p state now : String) (st : Stores) (hp : p ≠ "") :
    (¬ (truthyS (W2.getSecret st.secrets ("OAUTH_" ++ upperStr p ++ "_CLIENT_ID")) = true
        ∧ truthyS (W2.getSecret st.secrets ("OAUTH_" ++ upperStr p ++ "_AUTH_URL")) = true
        ∧ truthyS (W2.getSecret st.secrets "OAUTH_REDIRECT_URI") = true) →
      W2.handleOAuthInit (some p) state now st
        = (.jsonR 400 (errJson "OAuth info missing for provider."), st)) ∧
    (∀ ci au rd,
      W2.getSecret st.secrets ("OAUTH_" ++ upperStr p ++ "_CLIENT_ID") = some ci → ci ≠ "" →
      W2.getSecret st.secrets ("OAUTH_" ++ upperStr p ++ "_AUTH_URL") = some au → au ≠ "" →
      W2.getSecret st.secrets "OAUTH_REDIRECT_URI" = some rd → rd ≠ "" →
      W2.handleOAuthInit (some p) state now st
        = (.redirectR 302 (au ++ "?" ++ formSerialize ([("response_type", "code"),
            ("client_id", ci), ("redirect_uri", rd)] ++
            (if (W2.getSecret st.secrets ("OAUTH_" ++ upperStr p ++ "_SCOPE")).getD "" = ""
              then []
              else [("scope", (W2.getSecret st.secrets ("OAUTH_" ++ upperStr p ++ "_SCOPE")).getD "")])
            ++ [("state", state)])),
          { st with sessions := (putAL st.sessions ("oauth_state:" ++ state)
            (.jobj [("provider", .jstr p), ("created_at", .jstr now)])) })) := by
  constructor
  · intro h
    have hc : (!truthyS (W2.getSecret st.secrets ("OAUTH_" ++ upperStr p ++ "_CLIENT_ID"))
        || !truthyS (W2.getSecret st.secrets ("OAUTH_" ++ upperStr p ++ "_AUTH_URL"))
        || !truthyS (W2.getSecret st.secrets "OAUTH_REDIRECT_URI")) = true := by
      cases hA : truthyS (W2.getSecret st.secrets ("OAUTH_" ++ upperStr p ++ "_CLIENT_ID")) <;>
        cases hB : truthyS (W2.getSecret st.secrets ("OAUTH_" ++ upperStr p ++ "_AUTH_URL")) <;>
        cases hC : truthyS (W2.getSecret st.secrets "OAUTH_REDIRECT_URI") <;> simp_all
    simp [W2.handleOAuthInit, hp, hc]
  · intro ci au rd h1 h2 h3 h4 h5 h6
    simp [W2.handleOAuthInit, hp, h1, h3, h5, truthyS, h2, h4, h6]

/-- C6 witness: the provider "stripe" with a complete configuration in
the secrets store is redirected with the state token in the target; the
witness also exercises the incomplete branch on empty stores. -/
theorem C6_oauth_init_contract_witness :
    ("stripe" : String) ≠ "" ∧
    W2.handleOAuthInit (some "stripe") "S1" "T1" ⟨[], [], []⟩
      = (.jsonR 400 (errJson "OAuth info missing for provider."), (⟨[], [], []⟩ : Stores)) ∧
    W2.handleOAuthInit (some "stripe") "S1" "T1"
        ⟨[("secret:OAUTH_STRIPE_CLIENT_ID", "ci"),
          ("secret:OAUTH_STRIPE_AUTH_URL", "https://auth.example"),
          ("secret:OAUTH_REDIRECT_URI", "https://cb.example/x")], [], []⟩
      = (.redirectR 302 ("https://auth.example" ++ "?" ++ formSerialize
          ([("response_type", "code"), ("client_id", "ci"),
            ("redirect_uri", "https://cb.example/x")] ++ [] ++ [("state", "S1")])),
        ⟨[("secret:OAUTH_STRIPE_CLIENT_ID", "ci"),
          ("secret:OAUTH_STRIPE_AUTH_URL", "https://auth.example"),
          ("secret:OAUTH_REDIRECT_URI", "https://cb.example/x")],
         putAL [] ("oauth_state:" ++ "S1")
           (.jobj [("provider", .jstr "stripe"), ("created_at", .jstr "T1")]), []⟩) :=
  ⟨by decide,
   (C6_oauth_init_contract "stripe" "S1" "T1" ⟨[], [], []⟩ (by decide)).1 (by decide),
   by
    have h := (C6_oauth_init_contract "stripe" "S1" "T1"
        ⟨[("secret:OAUTH_STRIPE_CLIENT_ID", "ci"),
          ("secret:OAUTH_STRIPE_AUTH_URL", "https://auth.example"),
          ("secret:OAUTH_REDIRECT_URI", "https://cb.example/x")], [], []⟩ (by decide)).2
      "ci" "https://auth.example" "https://cb.example/x"
      (by decide) (by decide) (by decide) (by decide) (by decide) (by decide)
    simpa using h⟩

/-- C5.  When complete(code, state) finds a state record naming a
provider whose token endpoint and client id are configured, it posts to
that token endpoint a form body with grant type authorization_code, the
code, the redirect target, the client id, and the client secret exactly
when one is configured; on a successful exchange it writes the
stringified token response under the provider-keyed secret (overwriting
any previous binding at that key) and appends an audit entry naming the
provider and carrying no token material. -/
theorem C5_token_exchange (code state provider : String) (gs : List (String × Json))
    (tr : Json) (tu ci : String) (now key : String) (st : Stores)
    (hcode : code ≠ "") (hstate : state ≠ "")
    (hsess : getAL st.sessions ("oauth_state:" ++ state) = some (.jobj gs))
    (hprov : getAL gs "provider" = some (.jstr provider))
    (htu : W2.getSecret st.secrets ("OAUTH_" ++ upperStr provider ++ "_TOKEN_URL") = some tu)
    (htu2 : tu ≠ "")
    (hci : W2.getSecret st.secrets ("OAUTH_" ++ upperStr provider ++ "_CLIENT_ID") = some ci)
    (hci2 : ci ≠ "") :
    W2.handleOAuthCallback code state true tr now key st
      = ⟨.htmlR ("<html><body><h2>Connected " ++ provider ++
          "</h2><p>Close this window and return to your admin console.</p></body></html>"),
        ⟨putAL st.secrets ("secret:oauth:" ++ lowerStr provider ++ ":token") (stringify tr),
         st.sessions,
         putAL st.audit key (.jobj [("time", .jstr now), ("admin", .jstr ADMIN_HANDLE),
           ("event", .jstr "oauth_connected"),
           ("details", .jobj [("provider", .jstr provider)])])⟩,
        some (tu, formSerialize ([("grant_type", "authorization_code"), ("code", code),
          ("redirect_uri", (W2.getSecret st.secrets "OAUTH_REDIRECT_URI").getD "null"),
          ("client_id", ci)] ++
          (if truthyS (W2.getSecret st.secrets
              ("OAUTH_" ++ upperStr provider ++ "_CLIENT_SECRET")) = true then
            [("client_secret", (W2.getSecret st.secrets
              ("OAUTH_" ++ upperStr provider ++ "_CLIENT_SECRET")).getD "")]
          else [])))⟩ := by
  simp [W2.handleOAuthCallback, hcode, hstate, hsess, jsGet, hprov,
    htu, hci, truthyS, htu2, hci2]

/-- C5 witness: a stripe state record, full configuration including a
client secret, and a successful exchange with a concrete token
response. -/
theorem C5_token_exchange_witness :
    W2.handleOAuthCallback "CODE1" "S1" true (.jobj [("access_token", .jstr "AT")]) "T" "K"
        ⟨[("secret:OAUTH_STRIPE_TOKEN_URL", "https://tok.example"),
          ("secret:OAUTH_STRIPE_CLIENT_ID", "ci"),
          ("secret:OAUTH_STRIPE_CLIENT_SECRET", "cs"),
          ("secret:OAUTH_REDIRECT_URI", "https://cb.example/x")],
         [("oauth_state:S1", .jobj [("provider", .jstr "stripe"),
           ("created_at", .jstr "T0")])], []⟩
      = ⟨.htmlR ("<html><body><h2>Connected " ++ "stripe" ++
          "</h2><p>Close this window and return to your admin console.</p></body></html>"),
        ⟨putAL [("secret:OAUTH_STRIPE_TOKEN_URL", "https://tok.example"),
            ("secret:OAUTH_STRIPE_CLIENT_ID", "ci"),
            ("secret:OAUTH_STRIPE_CLIENT_SECRET", "cs"),
            ("secret:OAUTH_REDIRECT_URI", "https://cb.example/x")]
          ("secret:oauth:" ++ lowerStr "stripe" ++ ":token")
          (stringify (.jobj [("access_token", .jstr "AT")])),
         [("oauth_state:S1", .jobj [("provider", .jstr "stripe"),
           ("created_at", .jstr "T0")])],
         putAL [] "K" (.jobj [("time", .jstr "T"), ("admin", .jstr ADMIN_HANDLE),
           ("event", .jstr "oauth_connected"),
           ("details", .jobj [("provider", .jstr "stripe")])])⟩,
        some ("https://tok.example", formSerialize [("grant_type", "authorization_code"),
          ("code", "CODE1"), ("redirect_uri", "https://cb.example/x"),
          ("client_id", "ci"), ("client_secret", "cs")])⟩ := by
  have h := C5_token_exchange "CODE1" "S1" "stripe"
    [("provider", .jstr "stripe"), ("created_at", .jstr "T0")]
    (.jobj [("access_token", .jstr "AT")]) "https://tok.example" "ci" "T" "K"
    ⟨[("secret:OAUTH_STRIPE_TOKEN_URL", "https://tok.example"),
      ("secret:OAUTH_STRIPE_CLIENT_ID", "ci"),
      ("secret:OAUTH_STRIPE_CLIENT_SECRET", "cs"),
      ("secret:OAUTH_REDIRECT_URI", "https://cb.example/x")],
     [("oauth_state:S1", .jobj [("provider", .jstr "stripe"),
       ("created_at", .jstr "T0")])], []⟩
    (by decide) (by decide) (by decide) (by decide) (by decide) (by decide)
    (by decide) (by decide)
  simpa using h

/-- The provider-keyed token record written by the callback never
collides with any OAUTH_-prefixed configuration record. -/
theorem tokenKey_ne_configKey (x u y v : String) :
    ("secret:oauth:" ++ x) ++ u ≠ "secret:" ++ ("OAUTH_" ++ y ++ v) := by
  have e1 : ("secret:oauth:" ++ x) ++ u = "secret:oauth:" ++ (x ++ u) :=
    String.append_assoc _ _ _
  have e2 : "secret:" ++ ("OAUTH_" ++ y ++ v) = "secret:OAUTH_" ++ (y ++ v) := by
    rw [← String.append_assoc, ← String.append_assoc]
    have hm : ("secret:" ++ "OAUTH_" : String) = "secret:OAUTH_" := by decide
    rw [hm, String.append_assoc]
  rw [e1, e2]
  exact strPref_ne _ _ _ _ (by decide) (by decide)

/-- C9.  A successful complete(code, state) leaves the sessions
namespace untouched, so the state record is still present unchanged; a
second complete call with the same state and any non-empty code also
reaches the success branch and overwrites the provider's stored token
with the new exchange result — state tokens are not consumed by use. -/
theorem C9_state_not_consumed (code code2 state provider : String)
    (gs : List (String × Json)) (tr tr2 : Json) (tu ci : String)
    (now key now2 key2 : String) (st : Stores)
    (hcode : code ≠ "") (hcode2 : code2 ≠ "") (hstate : state ≠ "")
    (hsess : getAL st.sessions ("oauth_state:" ++ state) = some (.jobj gs))
    (hprov : getAL gs "provider" = some (.jstr provider))
    (htu : W2.getSecret st.secrets ("OAUTH_" ++ upperStr provider ++ "_TOKEN_URL") = some tu)
    (htu2 : tu ≠ "")
    (hci : W2.getSecret st.secrets ("OAUTH_" ++ upperStr provider ++ "_CLIENT_ID") = some ci)
    (hci2 : ci ≠ "") :
    (W2.handleOAuthCallback code state true tr now key st).st.sessions = st.sessions ∧
    getAL (W2.handleOAuthCallback code state true tr now key st).st.sessions
        ("oauth_state:" ++ state) = some (.jobj gs) ∧
    (W2.handleOAuthCallback code2 state true tr2 now2 key2
        (W2.handleOAuthCallback code state true tr now key st).st).resp
      = .htmlR ("<html><body><h2>Connected " ++ provider ++
          "</h2><p>Close this window and return to your admin console.</p></body></html>") ∧
    getAL (W2.handleOAuthCallback code2 state true tr2 now2 key2
        (W2.handleOAuthCallback code state true tr now key st).st).st.secrets
        ("secret:oauth:" ++ lowerStr provider ++ ":token")
      = some (stringify tr2) := by
  have hfst : (W2.handleOAuthCallback code state true tr now key st).st
      = ⟨putAL st.secrets ("secret:oauth:" ++ lowerStr provider ++ ":token") (stringify tr),
         st.sessions,
         putAL st.audit key (.jobj [("time", .jstr now), ("admin", .jstr ADMIN_HANDLE),
           ("event", .jstr "oauth_connected"),
           ("details", .jobj [("provider", .jstr provider)])])⟩ := by
    simp [W2.handleOAuthCallback, hcode, hstate, hsess, jsGet, hprov,
      htu, hci, truthyS, htu2, hci2]
  have htuP : W2.getSecret (putAL st.secrets
      ("secret:oauth:" ++ lowerStr provider ++ ":token") (stringify tr))
      ("OAUTH_" ++ upperStr provider ++ "_TOKEN_URL") = some tu := by
    unfold W2.getSecret
    rw [getAL_putAL_ne _ _ _ _ (tokenKey_ne_configKey (lowerStr provider) ":token"
      (upperStr provider) "_TOKEN_URL").symm]
    exact htu
  have hciP : W2.getSecret (putAL st.secrets
      ("secret:oauth:" ++ lowerStr provider ++ ":token") (stringify tr))
      ("OAUTH_" ++ upperStr provider ++ "_CLIENT_ID") = some ci := by
    unfold W2.getSecret
    rw [getAL_putAL_ne _ _ _ _ (tokenKey_ne_configKey (lowerStr provider) ":token"
      (upperStr provider) "_CLIENT_ID").symm]
    exact hci
  refine ⟨by rw [hfst], by rw [hfst]; exact hsess, ?_, ?_⟩ <;> rw [hfst] <;>
    simp [W2.handleOAuthCallback, hcode2, hstate, hsess, jsGet, hprov,
      truthyS, htu2, hci2, htuP, hciP, getAL_putAL_self]

/-- C9 witness: after a successful stripe callback the state record is
intact and a second callback with a fresh code succeeds, storing the new
token. -/
theorem C9_state_not_consumed_witness :
    (W2.handleOAuthCallback "C1" "S1" true (.jobj [("access_token", .jstr "A1")]) "T1" "K1"
        ⟨[("secret:OAUTH_STRIPE_TOKEN_URL", "https://tok.example"),
          ("secret:OAUTH_STRIPE_CLIENT_ID", "ci"),
          ("secret:OAUTH_STRIPE_CLIENT_SECRET", "cs"),
          ("secret:OAUTH_REDIRECT_URI", "https://cb.example/x")],
         [("oauth_state:S1", .jobj [("provider", .jstr "stripe"),
           ("created_at", .jstr "T0")])], []⟩).st.sessions
      = [("oauth_state:S1", .jobj [("provider", .jstr "stripe"),
          ("created_at", .jstr "T0")])] ∧
    getAL (W2.handleOAuthCallback "C1" "S1" true (.jobj [("access_token", .jstr "A1")]) "T1" "K1"
        ⟨[("secret:OAUTH_STRIPE_TOKEN_URL", "https://tok.example"),
          ("secret:OAUTH_STRIPE_CLIENT_ID", "ci"),
          ("secret:OAUTH_STRIPE_CLIENT_SECRET", "cs"),
          ("secret:OAUTH_REDIRECT_URI", "https://cb.example/x")],
         [("oauth_state:S1", .jobj [("provider", .jstr "stripe"),
           ("created_at", .jstr "T0")])], []⟩).st.sessions ("oauth_state:" ++ "S1")
      = some (.jobj [("provider", .jstr "stripe"), ("created_at", .jstr "T0")]) ∧
    (W2.handleOAuthCallback "C2" "S1" true (.jobj [("access_token", .jstr "A2")]) "T2" "K2"
        (W2.handleOAuthCallback "C1" "S1" true (.jobj [("access_token", .jstr "A1")]) "T1" "K1"
          ⟨[("secret:OAUTH_STRIPE_TOKEN_URL", "https://tok.example"),
            ("secret:OAUTH_STRIPE_CLIENT_ID", "ci"),
            ("secret:OAUTH_STRIPE_CLIENT_SECRET", "cs"),
            ("secret:OAUTH_REDIRECT_URI", "https://cb.example/x")],
           [("oauth_state:S1", .jobj [("provider", .jstr "stripe"),
             ("created_at", .jstr "T0")])], []⟩).st).resp
      = .htmlR ("<html><body><h2>Connected " ++ "stripe" ++
          "</h2><p>Close this window and return to your admin console.</p></body></html>") ∧
    getAL (W2.handleOAuthCallback "C2" "S1" true (.jobj [("access_token", .jstr "A2")]) "T2" "K2"
        (W2.handleOAuthCallback "C1" "S1" true (.jobj [("access_token", .jstr "A1")]) "T1" "K1"
          ⟨[("secret:OAUTH_STRIPE_TOKEN_URL", "https://tok.example"),
            ("secret:OAUTH_STRIPE_CLIENT_ID", "ci"),
            ("secret:OAUTH_STRIPE_CLIENT_SECRET", "cs"),
            ("secret:OAUTH_REDIRECT_URI", "https://cb.example/x")],
           [("oauth_state:S1", .jobj [("provider", .jstr "stripe"),
             ("created_at", .jstr "T0")])], []⟩).st).st.secrets
        ("secret:oauth:" ++ lowerStr "stripe" ++ ":token")
      = some (stringify (.jobj [("access_token", .jstr "A2")])) := by
  have h := C9_state_not_consumed "C1" "C2" "S1" "stripe"
    [("provider", .jstr "stripe"), ("created_at", .jstr "T0")]
    (.jobj [("access_token", .jstr "A1")]) (.jobj [("access_token", .jstr "A2")])
    "https://tok.example" "ci" "T1" "K1" "T2" "K2"
    ⟨[("secret:OAUTH_STRIPE_TOKEN_URL", "https://tok.example"),
      ("secret:OAUTH_STRIPE_CLIENT_ID", "ci"),
      ("secret:OAUTH_STRIPE_CLIENT_SECRET", "cs"),
      ("secret:OAUTH_REDIRECT_URI", "https://cb.example/x")],
     [("oauth_state:S1", .jobj [("provider", .jstr "stripe"),
       ("created_at", .jstr "T0")])], []⟩
    (by decide) (by decide) (by decide) (by decide) (by decide) (by decide)
    (by decide) (by decide) (by decide)
  simpa using h

/-- The "logs" array of an audit-listing response. -/
def respLogs : Resp → List Json
  | .jsonR _ (.jobj fs) =>
    match getAL fs "logs" with
    | some (.jarr l) => l
    | _ => []
  | _ => []

/-- C8.  The claim says the audit list operation returns the stored
entries newest-first, capped at the 200 most-recent.  The handler
instead fails on every call: its for-await-of statement iterates the
Promise returned by AUDIT_KV.list, a Promise is not (async) iterable,
so GetIterator throws TypeError before any iteration and the router
answers a 500 error envelope.  At a store holding two audit entries the
response is the 500 TypeError envelope with no logs — while the
repository's own deployment guide documents this endpoint returning an
array, and the flag-guarded scaffold's sibling handler (lines 368-388)
implements the documented listing. -/
theorem C8_list_audits_always_throws :
    W2.handleListAudits [("audit:1:a", .jobj [("time", .jnum 1)]),
        ("audit:2:b", .jobj [("time", .jnum 2)])]
      = .jsonR 500 (errJson "TypeError") ∧
    statusOf (W2.handleListAudits [("audit:1:a", .jobj [("time", .jnum 1)]),
        ("audit:2:b", .jobj [("time", .jnum 2)])]) = 500 ∧
    respLogs (W2.handleListAudits [("audit:1:a", .jobj [("time", .jnum 1)]),
        ("audit:2:b", .jobj [("time", .jnum 2)])]) = [] ∧
    (auditEntriesOf [("audit:1:a", .jobj [("time", .jnum 1)]),
        ("audit:2:b", .jobj [("time", .jnum 2)])]).length = 2 := by
  decide

/-- C4 counterexample.  The claim says a callback with an unknown state
fails with the Forbidden kind (403 in this system's error taxonomy).
With no record for the state, the handler answers status 400, not
403. -/
theorem C4_unknown_state_status_not_403 :
    (let out := W2.handleOAuthCallback "abc" "zzz" true (.jobj []) "t" "k" ⟨[], [], []⟩
     out.resp = .jsonR 400 (errJson "invalid or expired state") ∧
     ¬ statusOf out.resp = 403) := by
  decide

/-- C4 (amended).  For every code value and every state token with no
session record in the store, complete(code, state) fails with the
invalid-or-expired-state error at status 400 (BadRequest, not
Forbidden/403), independent of the code value; no token request is sent
and the stores are unchanged. -/
theorem C4_unknown_state_rejected (code state : String) (fOk : Bool)
    (tr : Json) (now key : String) (st : Stores)
    (hcode : code ≠ "") (hstate : state ≠ "")
    (hnone : getAL st.sessions ("oauth_state:" ++ state) = none) :
    W2.handleOAuthCallback code state fOk tr now key st
      = ⟨.jsonR 400 (errJson "invalid or expired state"), st, none⟩ := by
  simp [W2.handleOAuthCallback, hcode, hstate, hnone]

/-- C4 witness: a concrete forged state with a non-empty code is
rejected with the 400 invalid-or-expired-state answer. -/
theorem C4_unknown_state_rejected_witness :
    W2.handleOAuthCallback "c" "s" true .jnull "t" "k" ⟨[], [], []⟩
      = ⟨.jsonR 400 (errJson "invalid or expired state"), (⟨[], [], []⟩ : Stores), none⟩ :=
  C4_unknown_state_rejected "c" "s" true .jnull "t" "k" ⟨[], [], []⟩
    (by decide) (by decide) rfl

end PW
